import Mathlib

/-!
# Verification of the personal budget tracker core

Shallow embedding of `src/budget_tracker.py`: the `BudgetTracker` store
(`transactions` list, `categories` set), its aggregation queries
(`get_balance`, `spending_by_category`, the month filter of
`view_transactions_by_month`), and the `validate_date` function.

Python floats are modelled as rationals (`ℚ`); the wall clock
(`datetime.datetime.now()`) is passed in explicitly, as a formatted string
`today` for `add_transaction` and as a `(year, month, day)` triple `now`
for `validate_date` (the constructed `datetime(y, m, d)` has time 00:00:00,
so `date_obj > now` in Python holds exactly when the date triple is
lexicographically after `now`'s date triple).
-/

namespace BudgetSpec

/-- One transaction record, as built by `BudgetTracker.add_transaction`
(`src/budget_tracker.py` lines 17-22): the dict with keys
`amount`, `description`, `category`, `date`. -/
structure Transaction where
  amount : ℚ
  description : String
  category : String
  date : String
deriving DecidableEq, Repr

/-- The `BudgetTracker` object state (`__init__`, lines 8-10):
`self.transactions = []` and `self.categories = set()`. -/
structure BudgetTracker where
  transactions : List Transaction
  categories : Finset String

/-- A fresh tracker, as produced by `BudgetTracker.__init__`. -/
def BudgetTracker.empty : BudgetTracker := ⟨[], ∅⟩

/-- `BudgetTracker.add_transaction(amount, description, category, date=None)`
(lines 12-26). The Python code substitutes the current date only when
`date is None`; any supplied string (the empty string included) is stored
unchanged. `today` stands for `datetime.datetime.now().strftime("%Y-%m-%d")`. -/
def BudgetTracker.add_transaction (bt : BudgetTracker) (amount : ℚ)
    (description category : String) (date : Option String) (today : String) :
    BudgetTracker :=
  { transactions := bt.transactions ++
      [⟨amount, description, category,
        match date with | none => today | some s => s⟩],
    categories := insert category bt.categories }

/-- `total_income` of `get_balance` (line 59):
`sum(t['amount'] for t in self.transactions if t['amount'] > 0)`. -/
def BudgetTracker.total_income (bt : BudgetTracker) : ℚ :=
  ((bt.transactions.filter (fun t => 0 < t.amount)).map (fun t => t.amount)).sum

/-- `total_expenses` of `get_balance` (line 60):
`sum(t['amount'] for t in self.transactions if t['amount'] < 0)`. -/
def BudgetTracker.total_expenses (bt : BudgetTracker) : ℚ :=
  ((bt.transactions.filter (fun t => t.amount < 0)).map (fun t => t.amount)).sum

/-- `BudgetTracker.get_balance` (lines 57-77): returns
`total_income + total_expenses`. -/
def BudgetTracker.get_balance (bt : BudgetTracker) : ℚ :=
  bt.total_income + bt.total_expenses

/-- The income part of the partition used by `view_transactions` (line 38)
and `view_transactions_by_month` (line 266):
`[t for t in transactions if t['amount'] > 0]`. -/
def income_transactions (ts : List Transaction) : List Transaction :=
  ts.filter (fun t => 0 < t.amount)

/-- The expense part of the partition (lines 39 and 267):
`[t for t in transactions if t['amount'] < 0]`. -/
def expense_transactions (ts : List Transaction) : List Transaction :=
  ts.filter (fun t => t.amount < 0)

/-- One dict update of `spending_by_category` (lines 92-94): for an expense
of magnitude `v` in category `cat`,
`if category not in category_totals: category_totals[category] = 0` then
`category_totals[category] += abs(amount)`. Python dicts keep insertion
order, so an association list updated in place (new keys appended at the
end) models the dict exactly. -/
def updateTotals : List (String × ℚ) → String → ℚ → List (String × ℚ)
  | [], cat, v => [(cat, v)]
  | (c, w) :: rest, cat, v =>
    if c = cat then (c, w + v) :: rest
    else (c, w) :: updateTotals rest cat v

/-- The `category_totals` dict built by the loop of `spending_by_category`
(lines 85-94), starting from `{}`. -/
def categoryTotals (ts : List Transaction) : List (String × ℚ) :=
  ts.foldl
    (fun acc t => if t.amount < 0 then updateTotals acc t.category |t.amount| else acc)
    []

/-- `BudgetTracker.spending_by_category` (lines 79-99). On an empty store the
function prints "No transactions to analyze!" and returns early, building no
mapping at all; `none` models that short-circuit. Otherwise the computed
`category_totals` mapping is the result. -/
def BudgetTracker.spending_by_category (bt : BudgetTracker) :
    Option (List (String × ℚ)) :=
  if bt.transactions.isEmpty then none
  else some (categoryTotals bt.transactions)

/-- Key lookup in the association-list model of a Python dict
(`category_totals[category]` / `category not in category_totals`). -/
def lookupQ : List (String × ℚ) → String → Option ℚ
  | [], _ => none
  | (c, w) :: rest, k => if k = c then some w else lookupQ rest k

/-- Spec-side characterisation for `spending_by_category`: whether `ts` has
a transaction of category `cat` with a strictly negative amount. -/
def hasExpense (ts : List Transaction) (cat : String) : Bool :=
  ts.any (fun t => t.category = cat ∧ t.amount < 0)

/-- Spec-side characterisation for `spending_by_category`: the sum of the
absolute values of the strictly negative amounts of category `cat`. -/
def expenseTotal (ts : List Transaction) (cat : String) : ℚ :=
  ((ts.filter (fun t => t.category = cat ∧ t.amount < 0)).map
    (fun t => |t.amount|)).sum

/-! ## Date validation (`validate_date`, lines 101-145) -/

/-- ASCII digit. Models the regex class `\d` of
`^\d{4}-\d{2}-\d{2}$` (line 105) over the ASCII alphabet. Python's `\d`
additionally matches non-ASCII Unicode decimal digits (category Nd), which
lie outside this embedding's character model; the theorems that
characterise format acceptance therefore carry an `asciiString` hypothesis
naming the alphabet on which the model is exact. -/
def isDigitChar (c : Char) : Prop := 48 ≤ c.toNat ∧ c.toNat ≤ 57

instance (c : Char) : Decidable (isDigitChar c) := by
  unfold isDigitChar; infer_instance

/-- Numeric value of an ASCII digit character. -/
def digitVal (c : Char) : ℕ := c.toNat - 48

/-- Number of days in February (lines 126-130): 29 iff
`(year % 4 == 0 and year % 100 != 0) or (year % 400 == 0)`, else 28. -/
def febDays (year : ℕ) : ℕ :=
  if (year % 4 = 0 ∧ year % 100 ≠ 0) ∨ year % 400 = 0 then 29 else 28

/-- `dateAfter a b`: the calendar date `a = (y, m, d)` is strictly after
`b`. Models the Python comparison `date_obj > datetime.datetime.now()`
(line 139): `date_obj` carries time 00:00:00, so it exceeds `now` exactly
when its date triple is lexicographically after `now`'s date triple. -/
def dateAfter (a b : ℕ × ℕ × ℕ) : Prop :=
  b.1 < a.1 ∨ (b.1 = a.1 ∧ (b.2.1 < a.2.1 ∨ (b.2.1 = a.2.1 ∧ b.2.2 < a.2.2)))

instance (a b : ℕ × ℕ × ℕ) : Decidable (dateAfter a b) := by
  unfold dateAfter; infer_instance

/-- The body of `validate_date` after the regex has fixed the shape
`\d{4}-\d{2}-\d{2}`, on the parsed components
(`year, month, day = map(int, date_string.split('-'))`, line 109).
The chain transcribes lines 112-142 in order; the `year < 1` branch models
the `datetime.datetime(year, month, day)` call (line 136) raising
`ValueError: year 0 is out of range` — caught at line 144 — which, after the
month/day checks above, is the constructor's only remaining failure mode
for a four-digit year. -/
def validate_nums (year month day : ℕ) (now : ℕ × ℕ × ℕ) : Bool × String :=
  if month < 1 ∨ 12 < month then
    (false, "Month must be between 1 and 12")
  else if day < 1 ∨ 31 < day then
    (false, "Day must be between 1 and 31")
  else if (month = 4 ∨ month = 6 ∨ month = 9 ∨ month = 11) ∧ 30 < day then
    (false, "Month " ++ toString month ++ " has only 30 days")
  else if month = 2 ∧ febDays year < day then
    (false, "February " ++ toString year ++ " has only " ++
      toString (febDays year) ++ " days")
  else if year < 1 then
    (false, "Invalid date: year " ++ toString year ++ " is out of range")
  else if dateAfter (year, month, day) now then
    (false, "Date cannot be in the future!")
  else
    (true, "Valid date")

/-- The format test and rule chain of `validate_date` on the ten pattern
characters `\d{4}-\d{2}-\d{2}`: when every position holds the required
digit or hyphen, the components are parsed and the rule chain of
`validate_nums` runs; otherwise the format message is returned. -/
def validate_chars (y1 y2 y3 y4 h1 m1 m2 h2 d1 d2 : Char)
    (now : ℕ × ℕ × ℕ) : Bool × String :=
  if isDigitChar y1 ∧ isDigitChar y2 ∧ isDigitChar y3 ∧
      isDigitChar y4 ∧ h1 = '-' ∧ isDigitChar m1 ∧ isDigitChar m2 ∧
      h2 = '-' ∧ isDigitChar d1 ∧ isDigitChar d2 then
    validate_nums
      (1000 * digitVal y1 + 100 * digitVal y2 + 10 * digitVal y3 + digitVal y4)
      (10 * digitVal m1 + digitVal m2)
      (10 * digitVal d1 + digitVal d2) now
  else
    (false, "Date must be in YYYY-MM-DD format (e.g., 2024-01-15)")

/-- `validate_date` on the character list of the input.
`re.match(r'^\d{4}-\d{2}-\d{2}$', ...)` (line 105) accepts exactly the
ten-character pattern shape, or that shape followed by ONE trailing
newline: without `re.MULTILINE`, Python's `$` also matches just before a
newline that ends the string. In the trailing-newline case the split of
line 109 yields a day field ending in the newline, and `int` ignores that
trailing whitespace, so the rule chain runs on the same parsed
components. -/
def validate_core (l : List Char) (now : ℕ × ℕ × ℕ) : Bool × String :=
  match l with
  | [y1, y2, y3, y4, h1, m1, m2, h2, d1, d2] =>
    validate_chars y1 y2 y3 y4 h1 m1 m2 h2 d1 d2 now
  | [y1, y2, y3, y4, h1, m1, m2, h2, d1, d2, nl] =>
    if nl = '\n' then validate_chars y1 y2 y3 y4 h1 m1 m2 h2 d1 d2 now
    else (false, "Date must be in YYYY-MM-DD format (e.g., 2024-01-15)")
  | _ => (false, "Date must be in YYYY-MM-DD format (e.g., 2024-01-15)")

/-- `validate_date(date_string)` (lines 101-145), with the wall clock passed
explicitly as the `(year, month, day)` triple `now`. -/
def validate_date (date_string : String) (now : ℕ × ℕ × ℕ) : Bool × String :=
  validate_core date_string.toList now

/-! ## Spec-side date definitions (written from spec.md §4.1) -/

/-- Days in each month of a given year, used by the spec-side definitions:
February per the leap-year rule, 30 for April/June/September/November,
31 otherwise. -/
def daysInMonth (year month : ℕ) : ℕ :=
  if month = 2 then febDays year
  else if month = 4 ∨ month = 6 ∨ month = 9 ∨ month = 11 then 30
  else 31

/-- Spec rule 6: constructing a concrete calendar date from the parsed
components must not fail. Python's `datetime.datetime(y, m, d)` succeeds
exactly when `1 ≤ y ≤ 9999`, `1 ≤ m ≤ 12` and `1 ≤ d ≤` the month's
length. -/
def ctorOk (year month day : ℕ) : Prop :=
  1 ≤ year ∧ year ≤ 9999 ∧ 1 ≤ month ∧ month ≤ 12 ∧
    1 ≤ day ∧ day ≤ daysInMonth year month

instance (y m d : ℕ) : Decidable (ctorOk y m d) := by
  unfold ctorOk; infer_instance

/-- Spec-side rule chain of §4.1 on the parsed components, "in order, first
failure wins": month in [1,12]; day in [1,31]; 30-day months; February
leap-year maximum; date construction; no future date. -/
def spec_validate_nums (year month day : ℕ) (now : ℕ × ℕ × ℕ) : Bool × String :=
  if ¬(1 ≤ month ∧ month ≤ 12) then
    (false, "Month must be between 1 and 12")
  else if ¬(1 ≤ day ∧ day ≤ 31) then
    (false, "Day must be between 1 and 31")
  else if (month = 4 ∨ month = 6 ∨ month = 9 ∨ month = 11) ∧ ¬(day ≤ 30) then
    (false, "Month " ++ toString month ++ " has only 30 days")
  else if month = 2 ∧ ¬(day ≤ febDays year) then
    (false, "February " ++ toString year ++ " has only " ++
      toString (febDays year) ++ " days")
  else if ¬ctorOk year month day then
    (false, "Invalid date: year " ++ toString year ++ " is out of range")
  else if dateAfter (year, month, day) now then
    (false, "Date cannot be in the future!")
  else
    (true, "Valid date")

/-- Spec-side rule chain on the ten pattern characters. -/
def spec_validate_chars (y1 y2 y3 y4 h1 m1 m2 h2 d1 d2 : Char)
    (now : ℕ × ℕ × ℕ) : Bool × String :=
  if isDigitChar y1 ∧ isDigitChar y2 ∧ isDigitChar y3 ∧
      isDigitChar y4 ∧ h1 = '-' ∧ isDigitChar m1 ∧ isDigitChar m2 ∧
      h2 = '-' ∧ isDigitChar d1 ∧ isDigitChar d2 then
    spec_validate_nums
      (1000 * digitVal y1 + 100 * digitVal y2 + 10 * digitVal y3 + digitVal y4)
      (10 * digitVal m1 + digitVal m2)
      (10 * digitVal d1 + digitVal d2) now
  else
    (false, "Date must be in YYYY-MM-DD format (e.g., 2024-01-15)")

/-- Spec-side `validate` of §4.1, with rule 1's pattern read as the code's
regex actually behaves (the amendment the C4 counterexample forces): the
`DDDD-DD-DD` shape, optionally followed by one trailing newline; then the
rule chain on the parsed components. -/
def spec_validate_core (l : List Char) (now : ℕ × ℕ × ℕ) : Bool × String :=
  match l with
  | [y1, y2, y3, y4, h1, m1, m2, h2, d1, d2] =>
    spec_validate_chars y1 y2 y3 y4 h1 m1 m2 h2 d1 d2 now
  | [y1, y2, y3, y4, h1, m1, m2, h2, d1, d2, nl] =>
    if nl = '\n' then spec_validate_chars y1 y2 y3 y4 h1 m1 m2 h2 d1 d2 now
    else (false, "Date must be in YYYY-MM-DD format (e.g., 2024-01-15)")
  | _ => (false, "Date must be in YYYY-MM-DD format (e.g., 2024-01-15)")

/-- Spec-side `validate` on strings. -/
def spec_validate (date_string : String) (now : ℕ × ℕ × ℕ) : Bool × String :=
  spec_validate_core date_string.toList now

/-- Spec-side real-date characterisation on the ten pattern characters:
the required digit/hyphen shape, and the parsed components form a
constructible calendar date (year at least 1) not after `now`. -/
def spec_real_chars (y1 y2 y3 y4 h1 m1 m2 h2 d1 d2 : Char)
    (now : ℕ × ℕ × ℕ) : Prop :=
  (isDigitChar y1 ∧ isDigitChar y2 ∧ isDigitChar y3 ∧
      isDigitChar y4 ∧ h1 = '-' ∧ isDigitChar m1 ∧ isDigitChar m2 ∧
      h2 = '-' ∧ isDigitChar d1 ∧ isDigitChar d2) ∧
  (1 ≤ 1000 * digitVal y1 + 100 * digitVal y2 + 10 * digitVal y3 + digitVal y4 ∧
   1 ≤ 10 * digitVal m1 + digitVal m2 ∧
   10 * digitVal m1 + digitVal m2 ≤ 12 ∧
   1 ≤ 10 * digitVal d1 + digitVal d2 ∧
   10 * digitVal d1 + digitVal d2 ≤
     daysInMonth
       (1000 * digitVal y1 + 100 * digitVal y2 + 10 * digitVal y3 + digitVal y4)
       (10 * digitVal m1 + digitVal m2) ∧
   ¬dateAfter
     (1000 * digitVal y1 + 100 * digitVal y2 + 10 * digitVal y3 + digitVal y4,
       10 * digitVal m1 + digitVal m2,
       10 * digitVal d1 + digitVal d2) now)

/-- Spec-side characterisation of the successful inputs (C5, amended): the
string is the `YYYY-MM-DD` shape — optionally followed by one trailing
newline, which the code's regex accepts — denoting a real calendar date
not after the current date. -/
def spec_real_core (l : List Char) (now : ℕ × ℕ × ℕ) : Prop :=
  match l with
  | [y1, y2, y3, y4, h1, m1, m2, h2, d1, d2] =>
    spec_real_chars y1 y2 y3 y4 h1 m1 m2 h2 d1 d2 now
  | [y1, y2, y3, y4, h1, m1, m2, h2, d1, d2, nl] =>
    nl = '\n' ∧ spec_real_chars y1 y2 y3 y4 h1 m1 m2 h2 d1 d2 now
  | _ => False

/-- Spec-side success characterisation on strings. -/
def spec_real (s : String) (now : ℕ × ℕ × ℕ) : Prop :=
  spec_real_core s.toList now

/-- The claims' literal pattern `DDDD-DD-DD`: exactly ten characters —
four digits, hyphen, two digits, hyphen, two digits. Used by the C4/C5
counterexamples to state that a newline-suffixed input is not of this
form even though the program's regex accepts it. -/
def strictFormat (s : String) : Bool :=
  match s.toList with
  | [y1, y2, y3, y4, h1, m1, m2, h2, d1, d2] =>
    decide (isDigitChar y1 ∧ isDigitChar y2 ∧ isDigitChar y3 ∧
      isDigitChar y4 ∧ h1 = '-' ∧ isDigitChar m1 ∧ isDigitChar m2 ∧
      h2 = '-' ∧ isDigitChar d1 ∧ isDigitChar d2)
  | _ => false

/-- Every character of the string is ASCII: the alphabet on which the
embedded regex model is exact (Python's `\d` additionally accepts
non-ASCII Unicode decimal digits, outside this model). -/
def asciiString (s : String) : Prop := ∀ c ∈ s.toList, c.toNat < 128

instance (s : String) : Decidable (asciiString s) := by
  unfold asciiString
  exact List.decidableBAll _ _

/-! ## Month filter (`view_transactions_by_month`, lines 212-294) -/

/-- All characters are ASCII digits. -/
def allDigits (l : List Char) : Bool :=
  l.all (fun c => decide (isDigitChar c))

/-- Decimal value of a digit string. -/
def digitsToNat (l : List Char) : ℕ :=
  l.foldl (fun a c => 10 * a + digitVal c) 0

/-- Split a character list at each `'-'`, modelling Python's
`"...".split('-')` (and `String.splitOn "-"`): `"".split('-')` gives
`[""]`, and consecutive hyphens give empty groups. -/
def splitHyphens : List Char → List (List Char)
  | [] => [[]]
  | c :: rest =>
    match splitHyphens rest with
    | [] => [[]]
    | g :: gs => if c = '-' then [] :: g :: gs else (c :: g) :: gs

/-- Model of `datetime.datetime.strptime(s, "%Y-%m-%d")` (line 254) on the
character list: `%Y` matches exactly four digits, `%m` and `%d` one or two
digits; the directive patterns and the subsequent `datetime` construction
restrict month to 1..12 and day to 1..(length of the month), with year at
least 1. `none` models the `ValueError` raised on any mismatch. -/
def parseDateChars (l : List Char) : Option (ℕ × ℕ × ℕ) :=
  match splitHyphens l with
  | [yl, ml, dl] =>
    if yl.length = 4 ∧ allDigits yl ∧
        1 ≤ ml.length ∧ ml.length ≤ 2 ∧ allDigits ml ∧
        1 ≤ dl.length ∧ dl.length ≤ 2 ∧ allDigits dl then
      let y := digitsToNat yl
      let m := digitsToNat ml
      let d := digitsToNat dl
      if 1 ≤ y ∧ 1 ≤ m ∧ m ≤ 12 ∧ 1 ≤ d ∧ d ≤ daysInMonth y m then
        some (y, m, d)
      else none
    else none
  | _ => none

/-- `strptime("%Y-%m-%d")` on strings. -/
def parseDate (s : String) : Option (ℕ × ℕ × ℕ) :=
  parseDateChars s.toList

/-- The filter loop of `view_transactions_by_month` (lines 252-256): each
stored date string is parsed with `strptime` and the transaction is kept
when its month and year match the target. The loop has no exception
handler, so a stored date `strptime` cannot parse raises an uncaught
`ValueError`; `none` models that crash. -/
def filterByMonth : List Transaction → ℕ → ℕ → Option (List Transaction)
  | [], _, _ => some []
  | t :: rest, m, y =>
    match parseDate t.date with
    | none => none
    | some (ty, tm, _) =>
      match filterByMonth rest m y with
      | none => none
      | some l => some (if tm = m ∧ ty = y then t :: l else l)

/-- Spec-side match predicate: the stored date parses and its calendar
month and year equal the targets. -/
def monthMatches (t : Transaction) (m y : ℕ) : Bool :=
  match parseDate t.date with
  | some (ty, tm, _) => decide (tm = m ∧ ty = y)
  | none => false

/-- Observable outcome of `view_transactions_by_month`. -/
inductive MonthViewResult where
  /-- Empty store: "No transactions recorded yet!" early return
  (lines 214-216). -/
  | noTransactions : MonthViewResult
  /-- Uncaught `ValueError` from `strptime` on a stored date (line 254). -/
  | error : MonthViewResult
  /-- Nonempty store, no match: "No transactions found for ..." early
  return (lines 258-260). -/
  | noneFound : MonthViewResult
  /-- The listed matching transactions, in store order. -/
  | listing : List Transaction → MonthViewResult
deriving DecidableEq, Repr

/-- `view_transactions_by_month` (lines 212-294), with the interactively
selected target month and year passed as parameters (the prompt loop of
lines 218-249 is excluded interaction-layer code). -/
def view_transactions_by_month (bt : BudgetTracker)
    (target_month target_year : ℕ) : MonthViewResult :=
  if bt.transactions.isEmpty then .noTransactions
  else
    match filterByMonth bt.transactions target_month target_year with
    | none => .error
    | some [] => .noneFound
    | some l => .listing l

/-! ## Sequences of `add_transaction` calls (for the store invariant) -/

/-- The arguments of one `add_transaction` call, together with the wall
clock date `today` at the moment of the call. -/
structure AddOp where
  amount : ℚ
  description : String
  category : String
  date : Option String
  today : String

/-- Apply one `add_transaction` call. -/
def applyOp (bt : BudgetTracker) (op : AddOp) : BudgetTracker :=
  bt.add_transaction op.amount op.description op.category op.date op.today

/-- Apply a sequence of `add_transaction` calls in order. -/
def applyOps (bt : BudgetTracker) (ops : List AddOp) : BudgetTracker :=
  ops.foldl applyOp bt

/-! ## Helper lemmas -/

/-- The category set tracks the categories of the stored transactions
through any run of `add_transaction` calls. -/
lemma categories_eq_toFinset (ops : List AddOp) (bt : BudgetTracker)
    (h : bt.categories = (bt.transactions.map (fun t => t.category)).toFinset) :
    (applyOps bt ops).categories =
      ((applyOps bt ops).transactions.map (fun t => t.category)).toFinset := by
  induction ops generalizing bt with
  | nil => exact h
  | cons op ops ih =>
    simp only [applyOps, List.foldl_cons] at *
    apply ih
    show (insert op.category bt.categories : Finset String) = _
    simp only [applyOp, BudgetTracker.add_transaction, List.map_append,
      List.map_cons, List.map_nil, List.toFinset_append, List.toFinset_cons,
      List.toFinset_nil, insert_emptyc_eq]
    rw [h, Finset.insert_eq, Finset.union_comm]

/-- Looking a key up after a dict update: the updated key now carries the
old value plus the increment (or just the increment when it was absent);
every other key is untouched. -/
lemma lookupQ_updateTotals (l : List (String × ℚ)) (c k : String) (v : ℚ) :
    lookupQ (updateTotals l c v) k =
      if k = c then
        (match lookupQ l c with
          | some w => some (w + v)
          | none => some v)
      else lookupQ l k := by
  induction l with
  | nil => rfl
  | cons hd tl ih =>
    obtain ⟨c', w⟩ := hd
    simp only [updateTotals, lookupQ]
    by_cases h1 : c' = c
    · subst h1
      rw [if_pos rfl]
      simp only [lookupQ]
      by_cases h2 : k = c' <;> simp [h2]
    · rw [if_neg h1]
      simp only [lookupQ]
      have h1' : ¬c = c' := fun hc => h1 hc.symm
      by_cases h2 : k = c'
      · have h3 : ¬k = c := fun hc => h1 (h2.symm.trans hc)
        rw [if_pos h2, if_neg h3, if_pos h2]
      · rw [if_neg h2, ih, if_neg h1', if_neg h2]

/-- Running the `spending_by_category` loop over `ts` starting from an
arbitrary accumulator: the final value at key `k` is the starting value
(when present) plus the expense total of `k` in `ts`; a key absent from the
accumulator appears exactly when `ts` has an expense in that category. -/
lemma lookupQ_foldl_totals (ts : List Transaction)
    (acc : List (String × ℚ)) (k : String) :
    lookupQ (ts.foldl (fun acc t =>
        if t.amount < 0 then updateTotals acc t.category |t.amount| else acc)
        acc) k =
      match lookupQ acc k with
      | some w => some (w + expenseTotal ts k)
      | none =>
        if hasExpense ts k then some (expenseTotal ts k) else none := by
  induction ts generalizing acc with
  | nil =>
    cases h : lookupQ acc k <;>
      simp [h, expenseTotal, hasExpense]
  | cons t ts ih =>
    simp only [List.foldl_cons]
    by_cases hneg : t.amount < 0
    · rw [if_pos hneg, ih, lookupQ_updateTotals]
      by_cases hk : k = t.category
      · have hmem : t.category = k ∧ t.amount < 0 := ⟨hk.symm, hneg⟩
        have hexp : expenseTotal (t :: ts) k = |t.amount| + expenseTotal ts k := by
          simp [expenseTotal, List.filter_cons, hmem]
        have hhas : hasExpense (t :: ts) k = true := by
          simp [hasExpense, List.any_cons, hmem]
        rw [if_pos hk, hhas, hexp]
        rw [show lookupQ acc t.category = lookupQ acc k by rw [hk]]
        cases h : lookupQ acc k
        · simp
        · simp [add_assoc]
      · have hne : ¬(t.category = k ∧ t.amount < 0) := fun hc => hk hc.1.symm
        have hexp : expenseTotal (t :: ts) k = expenseTotal ts k := by
          simp [expenseTotal, List.filter_cons, hne]
        have hhas : hasExpense (t :: ts) k = hasExpense ts k := by
          simp [hasExpense, List.any_cons, hne]
        rw [if_neg hk, hexp, hhas]
    · rw [if_neg hneg, ih]
      have hne : ¬(t.category = k ∧ t.amount < 0) := fun hc => hneg hc.2
      have hexp : expenseTotal (t :: ts) k = expenseTotal ts k := by
        simp [expenseTotal, List.filter_cons, hne]
      have hhas : hasExpense (t :: ts) k = hasExpense ts k := by
        simp [hasExpense, List.any_cons, hne]
      rw [hexp, hhas]

/-! ## Claims -/

/-- C1: for every store state, `get_balance` returns
`total_income + total_expenses` (income = sum of amounts > 0, expenses =
sum of amounts < 0), and after `add_transaction(100, "Salary", "Income")`
then `add_transaction(-50, "Rent", "Housing")` on a fresh store,
`get_balance` returns 50. -/
theorem C1_balance_is_income_plus_expenses :
    (∀ bt : BudgetTracker, bt.get_balance = bt.total_income + bt.total_expenses) ∧
    ((BudgetTracker.empty.add_transaction 100 "Salary" "Income" none
        "2025-10-12").add_transaction (-50) "Rent" "Housing" none
        "2025-10-12").get_balance = 50 := by
  refine ⟨fun bt => rfl, ?_⟩
  norm_num [BudgetTracker.get_balance, BudgetTracker.total_income,
    BudgetTracker.total_expenses, BudgetTracker.add_transaction,
    BudgetTracker.empty, List.filter]

/-- C3 counterexample: on an empty store, `spending_by_category` does not
return an empty mapping — it takes the "No transactions to analyze!" early
return (modelled by `none`), and `view_transactions_by_month` likewise takes
its "No transactions recorded yet!" early return instead of producing an
empty listing. -/
theorem C3_counterexample :
    BudgetTracker.empty.spending_by_category = none ∧
    BudgetTracker.empty.spending_by_category ≠ some [] ∧
    view_transactions_by_month BudgetTracker.empty 1 2024 =
      MonthViewResult.noTransactions := by
  refine ⟨rfl, ?_, rfl⟩
  intro h
  exact Option.noConfusion h

/-- C3 (amended): on an empty store no Aggregator query raises:
`get_balance` returns 0, while `spending_by_category` and
`view_transactions_by_month` short-circuit with a "no transactions" notice
instead of returning an empty mapping / sequence. -/
theorem C3_empty_store_never_fails (m y : ℕ) :
    BudgetTracker.empty.get_balance = 0 ∧
    BudgetTracker.empty.spending_by_category = none ∧
    view_transactions_by_month BudgetTracker.empty m y =
      MonthViewResult.noTransactions := by
  refine ⟨?_, rfl, rfl⟩
  simp [BudgetTracker.get_balance, BudgetTracker.total_income,
    BudgetTracker.total_expenses, BudgetTracker.empty]

/-- C7 counterexample: `add_transaction` substitutes the current date only
when the date argument is `None`; a supplied empty string is stored
unchanged, not replaced by the current date. -/
theorem C7_counterexample :
    (BudgetTracker.empty.add_transaction 5 "Lunch" "Food" (some "")
        "2025-10-12").transactions = [⟨5, "Lunch", "Food", ""⟩] ∧
    ("" : String) ≠ "2025-10-12" := by
  exact ⟨rfl, by decide⟩

/-- C7 (amended): when the date argument is absent (`None`), the stored
date is the current date formatted `YYYY-MM-DD`; when any string is
supplied — the empty string included — the stored date is that string
unchanged. -/
theorem C7_date_substitution (bt : BudgetTracker) (a : ℚ)
    (descr cat s today : String) :
    (bt.add_transaction a descr cat none today).transactions =
      bt.transactions ++ [⟨a, descr, cat, today⟩] ∧
    (bt.add_transaction a descr cat (some s) today).transactions =
      bt.transactions ++ [⟨a, descr, cat, s⟩] :=
  ⟨rfl, rfl⟩

/-- C9: the income/expense partition keeps exactly the transactions with
positive amount in the income list and exactly those with negative amount
in the expense list, each as an order-preserving sublist, and a
zero-amount transaction lands in neither. -/
theorem C9_partition_income_expense (ts : List Transaction) (t : Transaction) :
    (income_transactions ts).count t =
      (if 0 < t.amount then ts.count t else 0) ∧
    (expense_transactions ts).count t =
      (if t.amount < 0 then ts.count t else 0) ∧
    (income_transactions ts).Sublist ts ∧
    (expense_transactions ts).Sublist ts ∧
    (t.amount = 0 → t ∉ income_transactions ts ∧ t ∉ expense_transactions ts) := by
  refine ⟨?_, ?_, List.filter_sublist ts, List.filter_sublist ts, ?_⟩
  · by_cases h : 0 < t.amount
    · rw [if_pos h]
      exact List.count_filter (by simpa using h)
    · rw [if_neg h, List.count_eq_zero]
      intro hmem
      exact h (by simpa using (List.mem_filter.mp hmem).2)
  · by_cases h : t.amount < 0
    · rw [if_pos h]
      exact List.count_filter (by simpa using h)
    · rw [if_neg h, List.count_eq_zero]
      intro hmem
      exact h (by simpa using (List.mem_filter.mp hmem).2)
  · intro h0
    constructor <;> intro hmem <;>
      · have := (List.mem_filter.mp hmem).2
        simp [h0] at this

/-- C9 witness: a concrete zero-amount transaction is excluded from both
partition lists. -/
theorem C9_witness :
    (⟨0, "Zero", "Misc", "2024-01-15"⟩ : Transaction) ∉
      income_transactions [⟨0, "Zero", "Misc", "2024-01-15"⟩] ∧
    (⟨0, "Zero", "Misc", "2024-01-15"⟩ : Transaction) ∉
      expense_transactions [⟨0, "Zero", "Misc", "2024-01-15"⟩] :=
  (C9_partition_income_expense [⟨0, "Zero", "Misc", "2024-01-15"⟩]
    ⟨0, "Zero", "Misc", "2024-01-15"⟩).2.2.2.2 rfl

/-- C10: starting from the empty store, after any sequence of
`add_transaction` calls the category set is exactly the set of category
values of the stored transactions, and each call appends exactly one record
at the end, leaving the previously stored records and their positions
unchanged. -/
theorem C10_store_invariant :
    (∀ ops : List AddOp,
      (applyOps BudgetTracker.empty ops).categories =
        ((applyOps BudgetTracker.empty ops).transactions.map
          (fun t => t.category)).toFinset) ∧
    (∀ (bt : BudgetTracker) (a : ℚ) (descr cat : String)
        (date : Option String) (today : String),
      (bt.add_transaction a descr cat date today).transactions =
        bt.transactions ++ [⟨a, descr, cat,
          match date with | none => today | some s => s⟩]) :=
  ⟨fun ops => categories_eq_toFinset ops BudgetTracker.empty (by rfl),
   fun bt a descr cat date today => rfl⟩

/-- C2: whenever `spending_by_category` produces a mapping, only
transactions with strictly negative amount contribute to it: each category
present maps to the sum of the absolute values of its negative amounts, and
a category with no negative-amount transaction is absent (no zero-valued
entries). -/
theorem C2_spending_by_category (bt : BudgetTracker) (m : List (String × ℚ))
    (h : bt.spending_by_category = some m) (cat : String) :
    lookupQ m cat =
      if hasExpense bt.transactions cat then
        some (expenseTotal bt.transactions cat)
      else none := by
  unfold BudgetTracker.spending_by_category at h
  split at h
  · exact Option.noConfusion h
  · obtain rfl : categoryTotals bt.transactions = m := Option.some.inj h
    rw [categoryTotals, lookupQ_foldl_totals]
    simp [lookupQ]

/-- C2 witness: after the spec's two-transaction scenario the produced
mapping holds 50 for "Housing" and nothing for "Income". -/
theorem C2_witness :
    lookupQ [("Housing", (50 : ℚ))] "Housing" = some 50 ∧
    lookupQ [("Housing", (50 : ℚ))] "Income" = none := by
  have habs : |(-50 : ℚ)| = 50 := by norm_num
  have hs : ((BudgetTracker.empty.add_transaction 100 "Salary" "Income" none
      "2025-10-12").add_transaction (-50) "Rent" "Housing" none
      "2025-10-12").spending_by_category = some [("Housing", (50 : ℚ))] := by
    norm_num [BudgetTracker.spending_by_category, BudgetTracker.add_transaction,
      BudgetTracker.empty, categoryTotals, updateTotals, habs]
  have hhousing : hasExpense ((BudgetTracker.empty.add_transaction 100 "Salary"
      "Income" none "2025-10-12").add_transaction (-50) "Rent" "Housing" none
      "2025-10-12").transactions "Housing" = true := by decide
  have hincome : hasExpense ((BudgetTracker.empty.add_transaction 100 "Salary"
      "Income" none "2025-10-12").add_transaction (-50) "Rent" "Housing" none
      "2025-10-12").transactions "Income" = false := by decide
  constructor
  · rw [C2_spending_by_category _ _ hs "Housing", if_pos hhousing]
    norm_num [expenseTotal, BudgetTracker.add_transaction,
      BudgetTracker.empty, habs]
  · rw [C2_spending_by_category _ _ hs "Income",
      if_neg (by rw [hincome]; exact fun hc => Bool.noConfusion hc)]

/-- C8 counterexample: the month filter does not simply exclude a
transaction whose stored date string does not parse — `strptime` raises an
uncaught `ValueError` (modelled by `none`) instead of returning the empty
match list the claim calls for. -/
theorem C8_counterexample :
    filterByMonth [⟨-5, "Coffee", "Food", "not a date"⟩] 1 2024 = none ∧
    ([(⟨-5, "Coffee", "Food", "not a date"⟩ : Transaction)].filter
        (fun t => monthMatches t 1 2024)) = [] ∧
    (none : Option (List Transaction)) ≠ some [] := by
  refine ⟨?_, ?_, fun h => Option.noConfusion h⟩ <;> decide

/-- C8 (amended): when every stored date string parses under
`strptime("%Y-%m-%d")`, the month filter returns exactly the transactions
whose date has the target calendar month and year, in their original
insertion order. -/
theorem C8_month_filter (ts : List Transaction) (m y : ℕ)
    (h : ∀ t ∈ ts, (parseDate t.date).isSome = true) :
    filterByMonth ts m y = some (ts.filter (fun t => monthMatches t m y)) := by
  induction ts with
  | nil => rfl
  | cons t ts ih =>
    have ht := h t (List.mem_cons_self t ts)
    obtain ⟨⟨ty, tm, td⟩, hp⟩ := Option.isSome_iff_exists.mp ht
    have hrest := ih (fun t' ht' => h t' (List.mem_cons_of_mem t ht'))
    have hmm : monthMatches t m y = decide (tm = m ∧ ty = y) := by
      simp only [monthMatches, hp]
    simp only [filterByMonth, hp, hrest, List.filter_cons, hmm,
      decide_eq_true_eq]

/-- C8 witness: a concrete two-transaction store with parseable dates,
filtered for January 2024. -/
theorem C8_witness :
    filterByMonth [⟨100, "Salary", "Income", "2024-01-15"⟩,
        ⟨-50, "Rent", "Housing", "2024-02-10"⟩] 1 2024 =
      some [⟨100, "Salary", "Income", "2024-01-15"⟩] := by
  rw [C8_month_filter
    [⟨100, "Salary", "Income", "2024-01-15"⟩,
      ⟨-50, "Rent", "Housing", "2024-02-10"⟩] 1 2024 (by decide)]
  decide

/-! ## Date-validation helper lemmas -/

lemma digitVal_le_nine (c : Char) (h : isDigitChar c) : digitVal c ≤ 9 := by
  unfold isDigitChar at h
  unfold digitVal
  omega

lemma febDays_bounds (y : ℕ) : febDays y = 28 ∨ febDays y = 29 := by
  unfold febDays
  split_ifs <;> simp

lemma daysInMonth_le_31 (y m : ℕ) : daysInMonth y m ≤ 31 := by
  unfold daysInMonth
  rcases febDays_bounds y with h | h <;> split_ifs <;> omega

lemma daysInMonth_thirty (y m : ℕ) (h : m = 4 ∨ m = 6 ∨ m = 9 ∨ m = 11) :
    daysInMonth y m = 30 := by
  rcases h with h | h | h | h <;> subst h <;> rfl

lemma daysInMonth_feb (y : ℕ) : daysInMonth y 2 = febDays y := by
  unfold daysInMonth
  simp

lemma day_le_daysInMonth (y m d : ℕ) (hd : d ≤ 31)
    (h30 : ¬((m = 4 ∨ m = 6 ∨ m = 9 ∨ m = 11) ∧ 30 < d))
    (hfeb : ¬(m = 2 ∧ febDays y < d)) : d ≤ daysInMonth y m := by
  unfold daysInMonth
  split_ifs with h2 h3
  · omega
  · omega
  · exact hd

/-- The code's rule chain on parsed components agrees with the spec's rule
chain, for the years a four-digit field can produce. -/
lemma validate_nums_eq_spec (year month day : ℕ) (now : ℕ × ℕ × ℕ)
    (hy : year ≤ 9999) :
    validate_nums year month day now = spec_validate_nums year month day now := by
  unfold validate_nums spec_validate_nums
  by_cases h1 : month < 1 ∨ 12 < month
  · rw [if_pos h1, if_pos (show ¬(1 ≤ month ∧ month ≤ 12) by omega)]
  · rw [if_neg h1, if_neg (show ¬¬(1 ≤ month ∧ month ≤ 12) by omega)]
    by_cases h2 : day < 1 ∨ 31 < day
    · rw [if_pos h2, if_pos (show ¬(1 ≤ day ∧ day ≤ 31) by omega)]
    · rw [if_neg h2, if_neg (show ¬¬(1 ≤ day ∧ day ≤ 31) by omega)]
      by_cases h3 : (month = 4 ∨ month = 6 ∨ month = 9 ∨ month = 11) ∧ 30 < day
      · rw [if_pos h3,
          if_pos (show (month = 4 ∨ month = 6 ∨ month = 9 ∨ month = 11) ∧
            ¬(day ≤ 30) from ⟨h3.1, by omega⟩)]
      · rw [if_neg h3,
          if_neg (show ¬((month = 4 ∨ month = 6 ∨ month = 9 ∨ month = 11) ∧
            ¬(day ≤ 30)) from fun hc => h3 ⟨hc.1, by omega⟩)]
        by_cases h4 : month = 2 ∧ febDays year < day
        · rw [if_pos h4,
            if_pos (show month = 2 ∧ ¬(day ≤ febDays year) from ⟨h4.1, by omega⟩)]
        · rw [if_neg h4,
            if_neg (show ¬(month = 2 ∧ ¬(day ≤ febDays year)) from
              fun hc => h4 ⟨hc.1, by omega⟩)]
          by_cases h5 : year < 1
          · rw [if_pos h5,
              if_pos (show ¬ctorOk year month day from
                fun hc => by unfold ctorOk at hc; omega)]
          · have hctor : ctorOk year month day := by
              unfold ctorOk
              exact ⟨by omega, hy, by omega, by omega, by omega,
                day_le_daysInMonth year month day (by omega) h3 h4⟩
            rw [if_neg h5, if_neg (not_not_intro hctor)]

/-- The code's rule chain succeeds exactly on parsed components that form a
real constructible calendar date not after `now`. -/
lemma validate_nums_true_iff (year month day : ℕ) (now : ℕ × ℕ × ℕ) :
    validate_nums year month day now = (true, "Valid date") ↔
      (1 ≤ year ∧ 1 ≤ month ∧ month ≤ 12 ∧ 1 ≤ day ∧
        day ≤ daysInMonth year month ∧
        ¬dateAfter (year, month, day) now) := by
  unfold validate_nums
  split_ifs with h1 h2 h3 h4 h5 h6
  · constructor
    · intro h; exact Bool.noConfusion (congrArg Prod.fst h)
    · rintro ⟨hy1, hm1, hm2, hd1, hdm, hfut⟩; exfalso; omega
  · constructor
    · intro h; exact Bool.noConfusion (congrArg Prod.fst h)
    · rintro ⟨hy1, hm1, hm2, hd1, hdm, hfut⟩
      exfalso
      have := daysInMonth_le_31 year month
      omega
  · constructor
    · intro h; exact Bool.noConfusion (congrArg Prod.fst h)
    · rintro ⟨hy1, hm1, hm2, hd1, hdm, hfut⟩
      exfalso
      have := daysInMonth_thirty year month h3.1
      omega
  · constructor
    · intro h; exact Bool.noConfusion (congrArg Prod.fst h)
    · rintro ⟨hy1, hm1, hm2, hd1, hdm, hfut⟩
      exfalso
      have hfe : daysInMonth year month = febDays year := by
        rw [h4.1]; exact daysInMonth_feb year
      omega
  · constructor
    · intro h; exact Bool.noConfusion (congrArg Prod.fst h)
    · rintro ⟨hy1, hm1, hm2, hd1, hdm, hfut⟩; exfalso; omega
  · constructor
    · intro h; exact Bool.noConfusion (congrArg Prod.fst h)
    · rintro ⟨hy1, hm1, hm2, hd1, hdm, hfut⟩; exact absurd h6 hfut
  · constructor
    · intro _
      exact ⟨by omega, by omega, by omega, by omega,
        day_le_daysInMonth year month day (by omega) h3 h4, h6⟩
    · intro _; rfl

/-- A string append whose left part is nonempty is nonempty. -/
lemma append_ne_empty (a b : String) (h : a ≠ "") : a ++ b ≠ "" := by
  intro hc
  apply h
  have hlen := congrArg String.length hc
  rw [String.length_append] at hlen
  have hz : ("" : String).length = 0 := rfl
  rw [hz] at hlen
  have ha : a.length = 0 := by omega
  obtain ⟨data⟩ := a
  cases data with
  | nil => rfl
  | cons c cs => exact absurd ha (by simp [String.length])

/-- The code-side rule chain on pattern characters agrees with the
spec-side chain. -/
lemma validate_chars_eq_spec (c1 c2 c3 c4 c5 c6 c7 c8 c9 c10 : Char)
    (now : ℕ × ℕ × ℕ) :
    validate_chars c1 c2 c3 c4 c5 c6 c7 c8 c9 c10 now =
      spec_validate_chars c1 c2 c3 c4 c5 c6 c7 c8 c9 c10 now := by
  unfold validate_chars spec_validate_chars
  by_cases hfmt : isDigitChar c1 ∧ isDigitChar c2 ∧ isDigitChar c3 ∧
      isDigitChar c4 ∧ c5 = '-' ∧ isDigitChar c6 ∧ isDigitChar c7 ∧
      c8 = '-' ∧ isDigitChar c9 ∧ isDigitChar c10
  · rw [if_pos hfmt, if_pos hfmt]
    obtain ⟨hd1, hd2, hd3, hd4, -, -, -, -, -, -⟩ := hfmt
    have b1 := digitVal_le_nine c1 hd1
    have b2 := digitVal_le_nine c2 hd2
    have b3 := digitVal_le_nine c3 hd3
    have b4 := digitVal_le_nine c4 hd4
    exact validate_nums_eq_spec _ _ _ now (by omega)
  · rw [if_neg hfmt, if_neg hfmt]

/-- The code-side rule chain on pattern characters succeeds exactly on
the spec-side real-date characterisation. -/
lemma validate_chars_true_iff (c1 c2 c3 c4 c5 c6 c7 c8 c9 c10 : Char)
    (now : ℕ × ℕ × ℕ) :
    validate_chars c1 c2 c3 c4 c5 c6 c7 c8 c9 c10 now = (true, "Valid date") ↔
      spec_real_chars c1 c2 c3 c4 c5 c6 c7 c8 c9 c10 now := by
  unfold validate_chars spec_real_chars
  by_cases hfmt : isDigitChar c1 ∧ isDigitChar c2 ∧ isDigitChar c3 ∧
      isDigitChar c4 ∧ c5 = '-' ∧ isDigitChar c6 ∧ isDigitChar c7 ∧
      c8 = '-' ∧ isDigitChar c9 ∧ isDigitChar c10
  · rw [if_pos hfmt, validate_nums_true_iff]
    exact (and_iff_right hfmt).symm
  · rw [if_neg hfmt]
    exact iff_of_false (fun h => Bool.noConfusion (congrArg Prod.fst h)) (fun b => hfmt b.1)

/-- The rule chain on pattern characters returns the fixed success pair
or a failure with a nonempty reason. -/
lemma validate_chars_total (c1 c2 c3 c4 c5 c6 c7 c8 c9 c10 : Char)
    (now : ℕ × ℕ × ℕ) :
    validate_chars c1 c2 c3 c4 c5 c6 c7 c8 c9 c10 now = (true, "Valid date") ∨
      ((validate_chars c1 c2 c3 c4 c5 c6 c7 c8 c9 c10 now).1 = false ∧
        (validate_chars c1 c2 c3 c4 c5 c6 c7 c8 c9 c10 now).2 ≠ "") := by
  unfold validate_chars
  by_cases hfmt : isDigitChar c1 ∧ isDigitChar c2 ∧ isDigitChar c3 ∧
      isDigitChar c4 ∧ c5 = '-' ∧ isDigitChar c6 ∧ isDigitChar c7 ∧
      c8 = '-' ∧ isDigitChar c9 ∧ isDigitChar c10
  · rw [if_pos hfmt]
    unfold validate_nums
    split_ifs
    · exact Or.inr ⟨rfl, by decide⟩
    · exact Or.inr ⟨rfl, by decide⟩
    · exact Or.inr ⟨rfl, append_ne_empty _ _
        (append_ne_empty _ _ (by decide))⟩
    · exact Or.inr ⟨rfl, append_ne_empty _ _ (append_ne_empty _ _
        (append_ne_empty _ _ (append_ne_empty _ _ (by decide))))⟩
    · exact Or.inr ⟨rfl, append_ne_empty _ _ (append_ne_empty _ _ (by decide))⟩
    · exact Or.inr ⟨rfl, by decide⟩
    · exact Or.inl rfl
  · rw [if_neg hfmt]
    exact Or.inr ⟨rfl, by decide⟩

/-- `validate_core` on an explicit ten-character list. -/
lemma validate_core_cons10 (c1 c2 c3 c4 c5 c6 c7 c8 c9 c10 : Char)
    (now : ℕ × ℕ × ℕ) :
    validate_core [c1, c2, c3, c4, c5, c6, c7, c8, c9, c10] now =
      validate_chars c1 c2 c3 c4 c5 c6 c7 c8 c9 c10 now := rfl

/-- `validate_core` on an explicit eleven-character list. -/
lemma validate_core_cons11 (c1 c2 c3 c4 c5 c6 c7 c8 c9 c10 c11 : Char)
    (now : ℕ × ℕ × ℕ) :
    validate_core [c1, c2, c3, c4, c5, c6, c7, c8, c9, c10, c11] now =
      if c11 = '\n' then validate_chars c1 c2 c3 c4 c5 c6 c7 c8 c9 c10 now
      else (false, "Date must be in YYYY-MM-DD format (e.g., 2024-01-15)") := rfl

/-- `spec_validate_core` on an explicit ten-character list. -/
lemma spec_validate_core_cons10 (c1 c2 c3 c4 c5 c6 c7 c8 c9 c10 : Char)
    (now : ℕ × ℕ × ℕ) :
    spec_validate_core [c1, c2, c3, c4, c5, c6, c7, c8, c9, c10] now =
      spec_validate_chars c1 c2 c3 c4 c5 c6 c7 c8 c9 c10 now := rfl

/-- `spec_validate_core` on an explicit eleven-character list. -/
lemma spec_validate_core_cons11 (c1 c2 c3 c4 c5 c6 c7 c8 c9 c10 c11 : Char)
    (now : ℕ × ℕ × ℕ) :
    spec_validate_core [c1, c2, c3, c4, c5, c6, c7, c8, c9, c10, c11] now =
      if c11 = '\n' then spec_validate_chars c1 c2 c3 c4 c5 c6 c7 c8 c9 c10 now
      else (false, "Date must be in YYYY-MM-DD format (e.g., 2024-01-15)") := rfl

/-- `spec_real_core` on an explicit ten-character list. -/
lemma spec_real_core_cons10 (c1 c2 c3 c4 c5 c6 c7 c8 c9 c10 : Char)
    (now : ℕ × ℕ × ℕ) :
    spec_real_core [c1, c2, c3, c4, c5, c6, c7, c8, c9, c10] now =
      spec_real_chars c1 c2 c3 c4 c5 c6 c7 c8 c9 c10 now := rfl

/-- `spec_real_core` on an explicit eleven-character list. -/
lemma spec_real_core_cons11 (c1 c2 c3 c4 c5 c6 c7 c8 c9 c10 c11 : Char)
    (now : ℕ × ℕ × ℕ) :
    spec_real_core [c1, c2, c3, c4, c5, c6, c7, c8, c9, c10, c11] now =
      (c11 = '\n' ∧ spec_real_chars c1 c2 c3 c4 c5 c6 c7 c8 c9 c10 now) := rfl

/-- C4 counterexample: `"2024-13-01\n"` passes the code's regex — `$`
matches before the single trailing newline — and then fails the
month-range rule, so the program returns the month message; the claimed
rule chain, whose first rule is the `DDDD-DD-DD` pattern that this
eleven-character input does not match, requires the format message
instead. -/
theorem C4_counterexample :
    validate_date "2024-13-01\n" (2025, 10, 12) =
      (false, "Month must be between 1 and 12") ∧
    strictFormat "2024-13-01\n" = false ∧
    ("Month must be between 1 and 12" : String) ≠
      "Date must be in YYYY-MM-DD format (e.g., 2024-01-15)" := by
  refine ⟨by decide, by decide, by decide⟩

/-- C4 (amended): with the format rule read as the code's regex actually
accepts — the `DDDD-DD-DD` shape optionally followed by one trailing
newline — `validate_date` applies the rules in the fixed order, the first
failing rule determines the result with that rule's specific message, and
no later rule is consulted: it coincides with the spec-side rule chain on
every ASCII input (the alphabet on which the regex model is exact); an
input failing even the widened pattern gets the format message despite
its out-of-range month. -/
theorem C4_validation_rule_order :
    (∀ (s : String) (now : ℕ × ℕ × ℕ), asciiString s →
      validate_date s now = spec_validate s now) ∧
    validate_date "2024-13-0a" (2025, 10, 12) =
      (false, "Date must be in YYYY-MM-DD format (e.g., 2024-01-15)") := by
  refine ⟨?_, by decide⟩
  intro s now _hascii
  unfold validate_date spec_validate
  generalize s.toList = l
  rcases l with _ | ⟨c1, _ | ⟨c2, _ | ⟨c3, _ | ⟨c4, _ | ⟨c5, _ | ⟨c6, _ |
    ⟨c7, _ | ⟨c8, _ | ⟨c9, _ | ⟨c10, _ | ⟨c11, _ | ⟨c12, l⟩⟩⟩⟩⟩⟩⟩⟩⟩⟩⟩⟩ <;> try rfl
  · rw [validate_core_cons10, spec_validate_core_cons10]
    exact validate_chars_eq_spec c1 c2 c3 c4 c5 c6 c7 c8 c9 c10 now
  · rw [validate_core_cons11, spec_validate_core_cons11]
    by_cases hnl : c11 = '\n'
    · rw [if_pos hnl, if_pos hnl]
      exact validate_chars_eq_spec c1 c2 c3 c4 c5 c6 c7 c8 c9 c10 now
    · rw [if_neg hnl, if_neg hnl]

/-- C4 witness: the amended rule-order theorem applied at a concrete
ASCII input. -/
theorem C4_witness :
    asciiString "2024-01-15" ∧
    validate_date "2024-01-15" (2025, 10, 12) =
      spec_validate "2024-01-15" (2025, 10, 12) :=
  ⟨by decide,
   C4_validation_rule_order.1 "2024-01-15" (2025, 10, 12) (by decide)⟩

/-- C5 counterexample: the program accepts `"2024-01-15\n"` — an
eleven-character string that is not in `YYYY-MM-DD` form — because the
regex's `$` matches before the trailing newline and `int` ignores the
trailing whitespace in the day field. -/
theorem C5_counterexample :
    validate_date "2024-01-15\n" (2025, 10, 12) = (true, "Valid date") ∧
    strictFormat "2024-01-15\n" = false := by
  refine ⟨by decide, by decide⟩

/-- C5 (amended): on ASCII inputs (the alphabet on which the regex model
is exact), `validate_date` succeeds — returning `(true, "Valid date")` —
exactly on strings denoting a real constructible calendar date not after
the current date, written `YYYY-MM-DD` optionally followed by one
trailing newline (which the code's regex accepts); `"2023-02-29"` fails,
`"2024-02-29"` succeeds, `"2024-02-30"` fails, and a date strictly after
the current date fails. -/
theorem C5_validate_success_characterisation :
    (∀ (s : String) (now : ℕ × ℕ × ℕ), asciiString s →
      (validate_date s now = (true, "Valid date") ↔ spec_real s now)) ∧
    (validate_date "2023-02-29" (2025, 10, 12)).1 = false ∧
    (validate_date "2024-02-29" (2025, 10, 12)).1 = true ∧
    (validate_date "2024-02-30" (2025, 10, 12)).1 = false ∧
    (validate_date "2025-10-13" (2025, 10, 12)).1 = false := by
  refine ⟨?_, by decide, by decide, by decide, by decide⟩
  intro s now _hascii
  unfold validate_date spec_real
  generalize s.toList = l
  rcases l with _ | ⟨c1, _ | ⟨c2, _ | ⟨c3, _ | ⟨c4, _ | ⟨c5, _ | ⟨c6, _ |
    ⟨c7, _ | ⟨c8, _ | ⟨c9, _ | ⟨c10, _ | ⟨c11, _ | ⟨c12, l⟩⟩⟩⟩⟩⟩⟩⟩⟩⟩⟩⟩ <;>
    try exact iff_of_false (fun h => Bool.noConfusion (congrArg Prod.fst h)) (fun b => by simp [spec_real_core] at b)
  · rw [validate_core_cons10, spec_real_core_cons10]
    exact validate_chars_true_iff c1 c2 c3 c4 c5 c6 c7 c8 c9 c10 now
  · rw [validate_core_cons11, spec_real_core_cons11]
    by_cases hnl : c11 = '\n'
    · rw [if_pos hnl, validate_chars_true_iff c1 c2 c3 c4 c5 c6 c7 c8 c9 c10 now]
      exact (and_iff_right hnl).symm
    · rw [if_neg hnl]
      exact iff_of_false (fun h => Bool.noConfusion (congrArg Prod.fst h)) (fun b => hnl b.1)

/-- C5 witness: the success characterisation applied at the concrete
ASCII input `"2024-02-29"` (the 2024 leap day, in the past), which the
program accepts and which therefore satisfies the spec-side
characterisation. -/
theorem C5_witness :
    asciiString "2024-02-29" ∧ spec_real "2024-02-29" (2025, 10, 12) :=
  ⟨by decide,
   (C5_validate_success_characterisation.1 "2024-02-29" (2025, 10, 12)
      (by decide)).mp (by decide)⟩

/-- C6: `validate_date` is total — on every input (the trailing-newline
acceptance of the regex included) it returns either the fixed success pair
or `(false, reason)` with a nonempty reason string; the pathological input
`"0000-01-01"`, which passes every explicit range check, is converted by
the exception handler into a failure result. -/
theorem C6_validate_never_throws :
    (∀ (s : String) (now : ℕ × ℕ × ℕ),
      validate_date s now = (true, "Valid date") ∨
        ((validate_date s now).1 = false ∧ (validate_date s now).2 ≠ "")) ∧
    validate_date "0000-01-01" (2025, 10, 12) =
      (false, "Invalid date: year 0 is out of range") := by
  refine ⟨?_, by decide⟩
  intro s now
  unfold validate_date
  generalize s.toList = l
  rcases l with _ | ⟨c1, _ | ⟨c2, _ | ⟨c3, _ | ⟨c4, _ | ⟨c5, _ | ⟨c6, _ |
    ⟨c7, _ | ⟨c8, _ | ⟨c9, _ | ⟨c10, _ | ⟨c11, _ | ⟨c12, l⟩⟩⟩⟩⟩⟩⟩⟩⟩⟩⟩⟩ <;>
    try exact Or.inr ⟨rfl, (by decide : ("Date must be in YYYY-MM-DD format (e.g., 2024-01-15)" : String) ≠ "")⟩
  · rw [validate_core_cons10]
    exact validate_chars_total c1 c2 c3 c4 c5 c6 c7 c8 c9 c10 now
  · rw [validate_core_cons11]
    by_cases hnl : c11 = '\n'
    · rw [if_pos hnl]
      exact validate_chars_total c1 c2 c3 c4 c5 c6 c7 c8 c9 c10 now
    · rw [if_neg hnl]
      exact Or.inr ⟨rfl, by decide⟩

end BudgetSpec
